import Mathlib

/-!
Shallow embedding of the Arrow Flight SQL server session middleware
(`cpp/src/arrow/flight/sql/server_session_middleware.cc`, its factory header,
and the `SessionOptionValue` wire decoding in
`cpp/src/arrow/flight/serialization_internal.cc`), together with theorems
settling the specification claims about cookie parsing, session resolution in
`StartCall`, the middleware state machine (`SendingHeaders`, `GetSession`,
`HasSession`), session option storage, and `FromProto`.

Strings are embedded as `List Char`; `std::map` and the session store are
embedded as association lists; the `while` loop of `ParseCookieString` is
embedded with explicit fuel, `none` meaning the loop had not terminated after
`fuel` iterations (so `∀ fuel, … = none` exhibits non-termination).
-/

namespace ArrowFlightSql

/-- Strings of the C++ code, embedded as lists of characters. -/
abbrev Str := List Char

/-- The literal list separator `"; "` of `ParseCookieString`. -/
def listSep : Str := [';', ' ']

/-- The literal pair separator `"="` of `ParseCookieString`. -/
def pairSep : Str := ['=']

/-- Embedding of `std::string_view::find(pat, ·)` scanning from index `i` of
the remaining suffix `s`: the smallest absolute index `≥ i` at which `pat`
occurs, `none` embedding `npos`. -/
def findSubAux (pat : Str) : Str → Nat → Option Nat
  | [], i => if pat = [] then some i else none
  | c :: rest, i =>
      if (c :: rest).take pat.length = pat then some i
      else findSubAux pat rest (i + 1)

/-- Embedding of `s.find(pat, start)`: first occurrence of `pat` in `s` at an
index `≥ start`, `none` embedding `npos`. -/
def findSub (pat s : Str) (start : Nat) : Option Nat :=
  findSubAux pat (s.drop start) start

/-- Embedding of `s.substr(pos, len)` on a `string_view`, where `len = none`
embeds `npos` (take everything up to the end). -/
def substrTo (s : Str) (pos : Nat) (len : Option Nat) : Str :=
  match len with
  | none => s.drop pos
  | some l => (s.drop pos).take l

/-- The loop of `ServerSessionMiddlewareFactory::ParseCookieString`
(server_session_middleware.cc lines 98-119), with explicit fuel: one unit of
fuel per iteration of the `while (cur < s.length())` loop, `none` when the
loop has not exited within the given fuel.  The body reassigns `cur` before
taking `tok = s.substr(cur, len)`, exactly as the source does. -/
def parseLoop (s : Str) : Nat → Nat → List (Str × Str) → Option (List (Str × Str))
  | 0, cur, result => if cur < s.length then none else some result
  | fuel + 1, cur, result =>
      if cur < s.length then
        let step : Nat × Option Nat :=
          match findSub listSep s cur with
          | none => (s.length, none)
          | some e => (e, some (e - cur))
        let cur' := step.1
        let tok := substrTo s cur' step.2
        match findSub pairSep tok 0 with
        | none => parseLoop s fuel cur' result
        | some valPos =>
            parseLoop s fuel cur'
              (result ++ [(tok.take valPos, tok.drop (valPos + 1))])
      else some result

/-- `ServerSessionMiddlewareFactory::ParseCookieString` (lines 90-122): run
the scanning loop from `cur = 0` with an empty result vector. -/
def ParseCookieString (fuel : Nat) (s : Str) : Option (List (Str × Str)) :=
  parseLoop s fuel 0 []

/-- The concrete cookie string `"a=1"` (a single well-formed pair). -/
def strAEq1 : Str := ("a=1").toList

/-- The concrete cookie string `"a=1; b=2"` of the specification example. -/
def strAEq1BEq2 : Str := ("a=1; b=2").toList

/-- Embedding of the in-memory `SessionOptionValue` variant: a closed sum with
exactly seven alternatives (serialization_internal.cc, FlightSqlSession).
Float payloads are carried as their raw bit patterns (`Nat`): the code only
copies them, never computes with them. -/
inductive SessionOptionValue where
  | stringV : Str → SessionOptionValue
  | boolV : Bool → SessionOptionValue
  | int32V : Int → SessionOptionValue
  | int64V : Int → SessionOptionValue
  | floatV : Nat → SessionOptionValue
  | doubleV : Nat → SessionOptionValue
  | stringListV : List Str → SessionOptionValue
deriving DecidableEq

/-- A `FlightSqlSession`'s option map `map_` (a `std::map<std::string,
SessionOptionValue>`), embedded as an association list. -/
abbrev FlightSqlSession := List (Str × SessionOptionValue)

/-- `FlightSqlSession::GetSessionOption` (lines 178-186): `map_.at(k)` when
`map_.count(k)`, otherwise `nullopt`.  The `Result` wrapper never carries an
error on this path, so the embedding returns the optional directly. -/
def GetSessionOption : FlightSqlSession → Str → Option SessionOptionValue
  | [], _ => none
  | (k', v) :: rest, k => if k' = k then some v else GetSessionOption rest k

/-- `FlightSqlSession::SetSessionOption` (lines 188-192): `map_[k] = v`,
insert-or-overwrite. -/
def SetSessionOption : FlightSqlSession → Str → SessionOptionValue → FlightSqlSession
  | [], k, v => [(k, v)]
  | (k', v') :: rest, k, v =>
      if k' = k then (k', v) :: rest else (k', v') :: SetSessionOption rest k v

/-- `FlightSqlSession::EraseSessionOption` (lines 194-197): `map_.erase(k)`. -/
def EraseSessionOption : FlightSqlSession → Str → FlightSqlSession
  | [], _ => []
  | (k', v') :: rest, k =>
      if k' = k then rest else (k', v') :: EraseSessionOption rest k

/-- The factory's `session_store_` (a `std::map<std::string,
std::shared_ptr<FlightSqlSession>>`), embedded as an association list. -/
abbrev SessionStore := List (Str × FlightSqlSession)

/-- Embedding of `session_store_.count(k) ? session_store_.at(k) : absent`. -/
def storeLookup : SessionStore → Str → Option FlightSqlSession
  | [], _ => none
  | (k', v) :: rest, k => if k' = k then some v else storeLookup rest k

/-- Embedding of `session_store_[new_id] = session` (insert-or-overwrite). -/
def storeInsert : SessionStore → Str → FlightSqlSession → SessionStore
  | [], k, v => [(k, v)]
  | (k', v') :: rest, k, v =>
      if k' = k then (k', v) :: rest else (k', v') :: storeInsert rest k v

/-- Modelled from the spec: the session cookie name constant
`kSessionCookieName` is declared in `server_session_middleware.h`, which is
not among the sources; the spec fixes it as `arrow_flight_session_id`. -/
def kSessionCookieName : Str := ("arrow_flight_session_id").toList

/-- The inbound header name `"cookie"` matched by `StartCall`. -/
def cookieHeaderName : Str := ("cookie").toList

/-- The response header name `"set-cookie"` emitted by `SendingHeaders`. -/
def setCookieHeaderName : Str := ("set-cookie").toList

/-- `arrow::Status` as `StartCall` uses it: `OK` or `Invalid(message)`. -/
inductive Status where
  | ok : Status
  | invalid : Str → Status
deriving DecidableEq

/-- The message of `Status::Invalid("Empty ", kSessionCookieName, " cookie value.")`. -/
def emptySessionCookieMsg : Str :=
  ("Empty ").toList ++ kSessionCookieName ++ (" cookie value.").toList

/-- The message of `Status::Invalid("Invalid or expired ", kSessionCookieName, " cookie.")`. -/
def invalidSessionCookieMsg : Str :=
  ("Invalid or expired ").toList ++ kSessionCookieName ++ (" cookie.").toList

/-- The state of a `ServerSessionMiddlewareImpl`: the `session_`,
`session_id_` and `existing_session` members (lines 48-88).  Unbound is
`⟨none, [], false⟩`; BoundNew is `existingSession = false` with a session;
BoundExisting is `existingSession = true` with a session. -/
structure ServerSessionMiddlewareImpl where
  session : Option FlightSqlSession
  sessionId : Str
  existingSession : Bool
deriving DecidableEq

/-- The two-argument constructor (line 57): no session, `existing_session = false`. -/
def mkUnboundMiddleware : ServerSessionMiddlewareImpl := ⟨none, [], false⟩

/-- The four-argument constructor (line 61): holds the given session and id,
`existing_session = true`. -/
def mkExistingMiddleware (s : FlightSqlSession) (sid : Str) :
    ServerSessionMiddlewareImpl := ⟨some s, sid, true⟩

/-- `ServerSessionMiddlewareImpl::SendingHeaders` (lines 70-75): adds the
single header `("set-cookie", kSessionCookieName + "=" + session_id_)` when
`!existing_session && session_`, and nothing otherwise.  The returned list is
the sequence of headers added. -/
def SendingHeaders (m : ServerSessionMiddlewareImpl) : List (Str × Str) :=
  if !m.existingSession && m.session.isSome then
    [(setCookieHeaderName, kSessionCookieName ++ '=' :: m.sessionId)]
  else []

/-- `ServerSessionMiddlewareImpl::HasSession` (line 79): whether `session_`
holds a session. -/
def HasSession (m : ServerSessionMiddlewareImpl) : Bool :=
  m.session.isSome

/-- Modelled from the spec: the factory's identifier generator (`boost` uuid
generation in the source, an injected strategy per the spec) produces a fresh
unique non-empty printable string containing neither `=` nor `;`; embedded as
a counter rendered in decimal. -/
def genSessionId (n : Nat) : Str := 'i' :: Nat.toDigits 10 n

/-- The mutable state of the `ServerSessionMiddlewareFactory`: the session
store and the generator's stream position. -/
structure ServerSessionMiddlewareFactory where
  sessionStore : SessionStore
  nextId : Nat
deriving DecidableEq

/-- `ServerSessionMiddlewareFactory::GetNewSession` (lines 162-171): draw a
fresh id, build an empty session, insert it into `session_store_`, and return
the session together with the id written through `*session_id`. -/
def GetNewSession (f : ServerSessionMiddlewareFactory) :
    FlightSqlSession × Str × ServerSessionMiddlewareFactory :=
  let newId := genSessionId f.nextId
  let session : FlightSqlSession := []
  (session, newId, ⟨storeInsert f.sessionStore newId session, f.nextId + 1⟩)

/-- `ServerSessionMiddlewareImpl::GetSession` (lines 81-85): if `session_` is
unset, obtain one from the factory (which also sets `session_id_`); return
the held session.  The result carries the returned session and the updated
middleware and factory states. -/
def GetSession (m : ServerSessionMiddlewareImpl) (f : ServerSessionMiddlewareFactory) :
    FlightSqlSession × ServerSessionMiddlewareImpl × ServerSessionMiddlewareFactory :=
  match m.session with
  | some s => (s, m, f)
  | none =>
      let r := GetNewSession f
      (r.1, { m with session := some r.1, sessionId := r.2.1 }, r.2.2)

/-- The inner loop of `StartCall` over the pairs of one parsed header value
(lines 134-140): a pair named `kSessionCookieName` with an empty value fails
immediately; otherwise such a pair overwrites the recorded candidate
(last match within the value wins). -/
def scanCookiePairs : List (Str × Str) → Str → Except Str Str
  | [], sessionId => .ok sessionId
  | (name, value) :: rest, sessionId =>
      if name = kSessionCookieName then
        if value = [] then .error emptySessionCookieMsg
        else scanCookiePairs rest value
      else scanCookiePairs rest sessionId

/-- The outer loop of `StartCall` over the `cookie` header values
(lines 130-142): parse each value, scan its pairs, and break as soon as the
candidate `session_id` is non-empty.  `none` when `ParseCookieString` does
not terminate within the fuel. -/
def scanCookieHeaders (fuel : Nat) : List Str → Str → Option (Except Str Str)
  | [], sessionId => some (.ok sessionId)
  | h :: rest, sessionId =>
      match ParseCookieString fuel h with
      | none => none
      | some cookies =>
          match scanCookiePairs cookies sessionId with
          | .error e => some (.error e)
          | .ok sessionId' =>
              if sessionId' = [] then scanCookieHeaders fuel rest sessionId'
              else some (.ok sessionId')

/-- The outcome of `StartCall`: the returned `Status`, the out-parameter
`*middleware` (`none` when left unset), and the session store afterwards. -/
structure StartCallResult where
  status : Status
  middleware : Option ServerSessionMiddlewareImpl
  sessionStore : SessionStore
deriving DecidableEq

/-- The candidate-resolution tail of `StartCall` (lines 144-156): an empty
candidate attaches an unbound middleware; a non-empty candidate absent from
the store fails with `Invalid` leaving `*middleware` unset; a present one
attaches a middleware bound to the stored session.  `StartCall` only reads
the store, so it is returned unchanged. -/
def resolveSessionId (sessionId : Str) (store : SessionStore) : StartCallResult :=
  if sessionId = [] then
    ⟨.ok, some mkUnboundMiddleware, store⟩
  else
    match storeLookup store sessionId with
    | none => ⟨.invalid invalidSessionCookieMsg, none, store⟩
    | some session => ⟨.ok, some (mkExistingMiddleware session sessionId), store⟩

/-- `StartCall` after the header scan: an `Invalid` from the pair scan is
returned with `*middleware` unset; otherwise the candidate is resolved
against the store. -/
def StartCallScanned (scanResult : Except Str Str) (store : SessionStore) :
    StartCallResult :=
  match scanResult with
  | .error e => ⟨.invalid e, none, store⟩
  | .ok sessionId => resolveSessionId sessionId store

/-- `incoming_headers.equal_range("cookie")` (lines 128-129): the values of
the `cookie` headers, in header order. -/
def cookieHeaderValues (headers : List (Str × Str)) : List Str :=
  (headers.filter (fun p => p.1 = cookieHeaderName)).map (fun p => p.2)

/-- `ServerSessionMiddlewareFactory::StartCall` (lines 124-159): scan the
`cookie` headers for a session-id candidate, then resolve it against the
session store.  `none` when some header value makes `ParseCookieString` loop
beyond the fuel. -/
def StartCall (fuel : Nat) (headers : List (Str × Str)) (store : SessionStore) :
    Option StartCallResult :=
  (scanCookieHeaders fuel (cookieHeaderValues headers) []).map
    (fun r => StartCallScanned r store)

/-- Embedding of the wire-level `pb::SessionOptionValue` message: the oneof
is either unset (`OPTION_VALUE_NOT_SET`) or carries exactly one of the seven
variants (serialization_internal.cc lines 268-300). -/
inductive PbSessionOptionValue where
  | optionValueNotSet : PbSessionOptionValue
  | stringValue : Str → PbSessionOptionValue
  | boolValue : Bool → PbSessionOptionValue
  | int32Value : Int → PbSessionOptionValue
  | int64Value : Int → PbSessionOptionValue
  | floatValue : Nat → PbSessionOptionValue
  | doubleValue : Nat → PbSessionOptionValue
  | stringListValue : List Str → PbSessionOptionValue
deriving DecidableEq

/-- The message of the `Status::Invalid` raised on an unset option value.
The source interpolates an option name that is not in scope in this function,
so only the fixed part of the message is embedded. -/
def unsetOptionValueMsg : Str := ("Unset option_value for name '").toList

/-- `FromProto(pb::SessionOptionValue)` (serialization_internal.cc lines
268-300): an unset oneof is `Status::Invalid`; each set variant is copied
into the corresponding `SessionOptionValue` alternative (the string list
element by element, which is the identity on the list). -/
def FromProto : PbSessionOptionValue → Except Str SessionOptionValue
  | .optionValueNotSet => .error unsetOptionValueMsg
  | .stringValue s => .ok (.stringV s)
  | .boolValue b => .ok (.boolV b)
  | .int32Value n => .ok (.int32V n)
  | .int64Value n => .ok (.int64V n)
  | .floatValue b => .ok (.floatV b)
  | .doubleValue b => .ok (.doubleV b)
  | .stringListValue vs => .ok (.stringListV vs)

/-- The session identifier `"abc"` of the specification examples. -/
def sidAbc : Str := ("abc").toList

/-- The two `cookie` headers of the multi-header resolution example:
`"x=1"` first, then `"arrow_flight_session_id=abc"`. -/
def hdrsC3 : List (Str × Str) :=
  [(cookieHeaderName, ("x=1").toList),
   (cookieHeaderName, ("arrow_flight_session_id=abc").toList)]

/-- A session store holding an (empty) session under identifier `"abc"`. -/
def storeC3 : SessionStore := [(sidAbc, [])]

/-- The single `cookie` header `"arrow_flight_session_id="` (empty value). -/
def hdrsC4 : List (Str × Str) :=
  [(cookieHeaderName, ("arrow_flight_session_id=").toList)]

/-- Claim C1: the specification says `ParseCookieString` splits on `"; "` and
splits each token at the first `"="` into a (name, value) pair, so that
`"a=1"` parses to `[("a","1")]`.  The code instead advances `cur` to the end
of the string before taking the token, so the final token is always the empty
string and is dropped: on `"a=1"` the code terminates (in one loop iteration)
with the empty pair list, not `[("a","1")]`. -/
theorem parseCookieString_drops_final_token :
    ParseCookieString 8 strAEq1 = some [] ∧
    ParseCookieString 8 strAEq1 ≠ some [(("a").toList, ("1").toList)] := by
  constructor
  · rfl
  · intro h
    simp [ParseCookieString, parseLoop, strAEq1, findSub, findSubAux,
      listSep, pairSep, substrTo] at h

/-- On `"a=1; b=2"` the loop reaches `cur = 3` (the position of the first
`"; "`) after one iteration, and from there every iteration finds the
separator at `cur` itself, sets `len = 0`, `cur = 3` again and extracts the
empty token: the state never changes. -/
theorem parseLoop_stuck_at_3 :
    ∀ fuel result, parseLoop strAEq1BEq2 fuel 3 result = none := by
  intro fuel
  induction fuel with
  | zero => intro result; rfl
  | succ n ih => intro result; exact ih result

/-- Claim C2: the specification says the scanning loop of `ParseCookieString`
always makes progress and the function terminates on every input, including
inputs containing the separator `"; "`.  The code does not: on `"a=1; b=2"`
the loop runs forever (for every fuel bound the loop is still running), because
`cur` is set to the separator position without ever skipping past it. -/
theorem parseCookieString_diverges :
    ∀ fuel, ParseCookieString fuel strAEq1BEq2 = none := by
  intro fuel
  cases fuel with
  | zero => rfl
  | succ n =>
      show parseLoop strAEq1BEq2 n 3 [] = none
      exact parseLoop_stuck_at_3 n []

/-- Claim C3: the specification says that with the two `cookie` headers
`"x=1"` then `"arrow_flight_session_id=abc"` and `"abc"` present in the
store, `StartCall` binds the call to session `"abc"`.  In the code,
`ParseCookieString` returns no pairs for either header value (the sole token
of a separator-free value is dropped, see claim C1), so no candidate is ever
recorded and `StartCall` attaches an unbound, session-less middleware
instead of binding to `"abc"`. -/
theorem startCall_misses_session_cookie :
    StartCall 8 hdrsC3 storeC3 = some ⟨.ok, some mkUnboundMiddleware, storeC3⟩ ∧
    StartCall 8 hdrsC3 storeC3 ≠
      some ⟨.ok, some (mkExistingMiddleware [] sidAbc), storeC3⟩ := by
  exact ⟨by decide, by decide⟩

/-- Claim C4: the specification says the header value
`"arrow_flight_session_id="` makes `StartCall` fail with InvalidArgument
(empty session cookie value).  In the code, `ParseCookieString` drops the
sole token of this separator-free value (claim C1), so the empty-value check
is never reached: `StartCall` succeeds and attaches an unbound middleware. -/
theorem startCall_accepts_empty_cookie_value :
    StartCall 8 hdrsC4 [] = some ⟨.ok, some mkUnboundMiddleware, []⟩ ∧
    StartCall 8 hdrsC4 [] ≠ some ⟨.invalid emptySessionCookieMsg, none, []⟩ := by
  exact ⟨by decide, by decide⟩

/-- Claim C5: once `StartCall` has recorded a non-empty candidate session
identifier, resolution against the store behaves as specified: an identifier
absent from the store yields `Status::Invalid` with `*middleware` left unset,
and a present identifier yields `Status::OK` with a middleware bound to the
stored session in the BoundExisting state. -/
theorem resolveSessionId_lookup (sid : Str) (store : SessionStore)
    (h : sid ≠ []) :
    (storeLookup store sid = none →
      resolveSessionId sid store =
        ⟨.invalid invalidSessionCookieMsg, none, store⟩) ∧
    (∀ s, storeLookup store sid = some s →
      resolveSessionId sid store =
        ⟨.ok, some (mkExistingMiddleware s sid), store⟩) := by
  constructor
  · intro hl
    simp [resolveSessionId, h, hl]
  · intro s hl
    simp [resolveSessionId, h, hl]

/-- Witness for claim C5 at the concrete identifier `"abc"` present in the
store as an empty session. -/
theorem resolveSessionId_lookup_witness :
    sidAbc ≠ [] ∧
    resolveSessionId sidAbc [(sidAbc, [])] =
      ⟨.ok, some (mkExistingMiddleware [] sidAbc), [(sidAbc, [])]⟩ :=
  ⟨by decide,
    (resolveSessionId_lookup sidAbc [(sidAbc, [])] (by decide)).2 [] (by rfl)⟩

/-- Claim C6: `SendingHeaders` emits exactly the single response header
`("set-cookie", kSessionCookieName + "=" + session_id_)` if and only if the
middleware is in the BoundNew state (`existing_session` false and a session
held); a BoundExisting middleware and an unbound middleware both emit
nothing. -/
theorem sendingHeaders_iff_bound_new (m : ServerSessionMiddlewareImpl) :
    (SendingHeaders m =
        [(setCookieHeaderName, kSessionCookieName ++ '=' :: m.sessionId)] ↔
      m.existingSession = false ∧ m.session.isSome = true) ∧
    (m.existingSession = true → SendingHeaders m = []) ∧
    (m.session = none → SendingHeaders m = []) := by
  obtain ⟨s, sid, ex⟩ := m
  cases ex <;> cases s <;> simp [SendingHeaders]

/-- Witness for claim C6: a middleware bound to an existing session emits no
header, by the theorem applied at a concrete BoundExisting state. -/
theorem sendingHeaders_iff_bound_new_witness :
    (mkExistingMiddleware [] sidAbc).existingSession = true ∧
    SendingHeaders (mkExistingMiddleware [] sidAbc) = [] :=
  ⟨rfl, (sendingHeaders_iff_bound_new (mkExistingMiddleware [] sidAbc)).2.1 rfl⟩

/-- Claim C7: `GetSession` is idempotent — running it a second time on the
states it produced returns the same session, middleware and factory — its
first call on an unbound middleware creates, registers and binds exactly one
new empty session under the freshly generated identifier, a middleware
already holding a session (in particular one bound at construction) gets that
session back with nothing created, and `HasSession` is true exactly when a
session is held. -/
theorem getSession_idempotent (m : ServerSessionMiddlewareImpl)
    (f : ServerSessionMiddlewareFactory) :
    GetSession (GetSession m f).2.1 (GetSession m f).2.2 = GetSession m f ∧
    (m.session = none →
      (GetSession m f).2.1.session = some [] ∧
      (GetSession m f).2.1.sessionId = genSessionId f.nextId ∧
      (GetSession m f).2.2 =
        ⟨storeInsert f.sessionStore (genSessionId f.nextId) [], f.nextId + 1⟩) ∧
    (∀ s, m.session = some s → GetSession m f = (s, m, f)) ∧
    (HasSession m = true ↔ ∃ s, m.session = some s) := by
  obtain ⟨s, sid, ex⟩ := m
  cases s with
  | none =>
      refine ⟨rfl, fun _ => ⟨rfl, rfl, rfl⟩, fun s hs => Option.noConfusion hs, ?_⟩
      exact ⟨fun h => Bool.noConfusion h, fun ⟨s, hs⟩ => Option.noConfusion hs⟩
  | some s0 =>
      refine ⟨rfl, fun h => Option.noConfusion h, fun s hs => ?_, ?_⟩
      · injection hs with h
        subst h
        rfl
      · exact ⟨fun _ => ⟨s0, rfl⟩, fun _ => rfl⟩

/-- Witness for claim C7: the first `GetSession` on an unbound middleware
with an empty factory registers the one fresh session, by the theorem applied
at that concrete state. -/
theorem getSession_idempotent_witness :
    mkUnboundMiddleware.session = none ∧
    ((GetSession mkUnboundMiddleware ⟨[], 0⟩).2.1.session = some [] ∧
      (GetSession mkUnboundMiddleware ⟨[], 0⟩).2.1.sessionId = genSessionId 0 ∧
      (GetSession mkUnboundMiddleware ⟨[], 0⟩).2.2 =
        ⟨storeInsert [] (genSessionId 0) [], 0 + 1⟩) :=
  ⟨rfl, (getSession_idempotent mkUnboundMiddleware ⟨[], 0⟩).2.1 rfl⟩

/-- Claim C8: whenever `StartCall` returns a failure status (either error
exit: empty cookie value during the scan, or unknown identifier during
resolution), it is atomic — the `*middleware` out-parameter is left unset and
the session store is exactly what it was before the call. -/
theorem startCall_failure_is_atomic (scanResult : Except Str Str)
    (store : SessionStore) (e : Str)
    (h : (StartCallScanned scanResult store).status = .invalid e) :
    (StartCallScanned scanResult store).middleware = none ∧
    (StartCallScanned scanResult store).sessionStore = store := by
  cases scanResult with
  | error msg => exact ⟨rfl, rfl⟩
  | ok sid =>
      by_cases hsid : sid = []
      · simp [StartCallScanned, resolveSessionId, hsid] at h
      · rcases hl : storeLookup store sid with _ | s
        · simp [StartCallScanned, resolveSessionId, hsid, hl]
        · simp [StartCallScanned, resolveSessionId, hsid, hl] at h

/-- Witness for claim C8 at the concrete candidate `"abc"` resolved against
an empty store: the call fails and leaves middleware unset and the store
unchanged. -/
theorem startCall_failure_is_atomic_witness :
    (StartCallScanned (.ok sidAbc) []).status =
      .invalid invalidSessionCookieMsg ∧
    ((StartCallScanned (.ok sidAbc) []).middleware = none ∧
      (StartCallScanned (.ok sidAbc) []).sessionStore = []) :=
  ⟨by decide,
    startCall_failure_is_atomic (.ok sidAbc) [] invalidSessionCookieMsg
      (by decide)⟩

/-- Inserting under key `k` and reading `k` back returns exactly the value
inserted, for the association-list embedding of `std::map`. -/
theorem getSessionOption_setSessionOption_self (m : FlightSqlSession)
    (k : Str) (v : SessionOptionValue) :
    GetSessionOption (SetSessionOption m k v) k = some v := by
  induction m with
  | nil => simp [SetSessionOption, GetSessionOption]
  | cons p rest ih =>
      obtain ⟨k', v'⟩ := p
      by_cases h : k' = k
      · simp [SetSessionOption, GetSessionOption, h]
      · simp [SetSessionOption, GetSessionOption, h, ih]

/-- Reading a key that is not among the map's keys returns `none`. -/
theorem getSessionOption_not_mem (m : FlightSqlSession) (k : Str)
    (h : k ∉ m.map Prod.fst) :
    GetSessionOption m k = none := by
  induction m with
  | nil => rfl
  | cons p rest ih =>
      obtain ⟨k', v'⟩ := p
      rw [List.map_cons] at h
      simp only [List.mem_cons, not_or] at h
      show (if k' = k then some v' else GetSessionOption rest k) = none
      rw [if_neg (fun hh => h.1 hh.symm)]
      exact ih h.2

/-- Claim C9: for every session, option name and option value (of any of the
seven kinds, the empty string list included), `SetSessionOption` followed by
`GetSessionOption` of the same name returns exactly the value set; and
`GetSessionOption` of a name never set (not among the map's keys) returns
absent. -/
theorem sessionOption_roundtrip (m : FlightSqlSession) (k k' : Str)
    (v : SessionOptionValue) (h : k' ∉ m.map Prod.fst) :
    GetSessionOption (SetSessionOption m k v) k = some v ∧
    GetSessionOption m k' = none :=
  ⟨getSessionOption_setSessionOption_self m k v,
    getSessionOption_not_mem m k' h⟩

/-- Witness for claim C9 at the empty session, name `"abc"` and the empty
string list value. -/
theorem sessionOption_roundtrip_witness :
    sidAbc ∉ ([] : FlightSqlSession).map Prod.fst ∧
    (GetSessionOption (SetSessionOption [] sidAbc (.stringListV [])) sidAbc =
        some (.stringListV []) ∧
      GetSessionOption [] sidAbc = none) :=
  ⟨by decide, sessionOption_roundtrip [] sidAbc sidAbc (.stringListV [])
    (by decide)⟩

/-- Claim C10: decoding a wire-level `SessionOptionValue` whose oneof is
unset returns an `Invalid` decode error, not any default value; each of the
seven set variants decodes to the corresponding in-memory alternative. -/
theorem fromProto_unset_is_error :
    (∃ e, FromProto .optionValueNotSet = Except.error e) ∧
    (∀ s, FromProto (.stringValue s) = .ok (.stringV s)) ∧
    (∀ b, FromProto (.boolValue b) = .ok (.boolV b)) ∧
    (∀ n, FromProto (.int32Value n) = .ok (.int32V n)) ∧
    (∀ n, FromProto (.int64Value n) = .ok (.int64V n)) ∧
    (∀ b, FromProto (.floatValue b) = .ok (.floatV b)) ∧
    (∀ b, FromProto (.doubleValue b) = .ok (.doubleV b)) ∧
    (∀ vs, FromProto (.stringListValue vs) = .ok (.stringListV vs)) :=
  ⟨⟨unsetOptionValueMsg, rfl⟩, fun _ => rfl, fun _ => rfl, fun _ => rfl,
    fun _ => rfl, fun _ => rfl, fun _ => rfl, fun _ => rfl⟩

end ArrowFlightSql
